import Mathlib

/-!
Shallow embedding of the go-albumcatalog service: the `Album` entity
(album.go), the Postgres storage adapter (`pgAlbumStorage`), the request
validator and the five HTTP handlers (http-handlers.go, http-utils.go).

The database table is modelled as a list of rows; the `timestamp` columns
(without time zone) are modelled as bare instants, while Go `time.Time`
values carry an instant together with a location, so that the adapter's
`.UTC()` conversions on write and `.Local()` conversions on read are
explicit.
-/

namespace AlbumCatalog

/-- Location part of a Go `time.Time`: either UTC or the process-local zone. -/
inductive Loc where
  | utc
  | localZone
deriving DecidableEq, Repr

/-- Model of Go `time.Time`: an absolute instant plus a location.
`UTC()` and `Local()` change only the location, never the instant. -/
structure GoTime where
  instant : Int
  loc : Loc
deriving DecidableEq, Repr

/-- Go `t.UTC()`. -/
def GoTime.toUTC (t : GoTime) : GoTime := ⟨t.instant, Loc.utc⟩

/-- Go `t.Local()`. -/
def GoTime.toLocal (t : GoTime) : GoTime := ⟨t.instant, Loc.localZone⟩

/-- The `Album` record from album.go. The 128-bit UUID is modelled as a `Nat`. -/
structure Album where
  ID : Nat
  Title : String
  Artist : String
  Price : Int
  CreatedAt : GoTime
  UpdatedAt : GoTime
deriving DecidableEq, Repr

/-- A row of the `album` table (schema in the goose migration): the
`timestamp` columns have no time zone, so they are bare instants. -/
structure Row where
  id : Nat
  title : String
  artist : String
  price : Int
  created_at : Int
  updated_at : Int
deriving DecidableEq, Repr

/-- The state of the `album` table. -/
abbrev Storage := List Row

/-- Storage-layer errors: `ErrAlbumNotFound`, and any other database error
(for instance the primary-key violation on a duplicate insert). -/
inductive StorageErr where
  | albumNotFound
  | dbError
deriving DecidableEq, Repr

/-- Go function scanAlbum: decodes a row into an `Album`. The driver reads the naive
`timestamp` columns as UTC times and the function then applies `.Local()`. -/
def scanAlbum (r : Row) : Album :=
  { ID := r.id
    Title := r.title
    Artist := r.artist
    Price := r.price
    CreatedAt := GoTime.toLocal ⟨r.created_at, Loc.utc⟩
    UpdatedAt := GoTime.toLocal ⟨r.updated_at, Loc.utc⟩ }

/-- Method pgAlbumStorage.Insert: one `INSERT` of the six columns, converting the
timestamps with `.UTC()`. The `id` column is the primary key, so a duplicate
identifier makes the statement fail with a database error. -/
def pgInsert (s : Storage) (alb : Album) : Except StorageErr Storage :=
  if s.any (fun r => r.id = alb.ID) then
    Except.error StorageErr.dbError
  else
    Except.ok (s ++ [{ id := alb.ID
                       title := alb.Title
                       artist := alb.Artist
                       price := alb.Price
                       created_at := alb.CreatedAt.toUTC.instant
                       updated_at := alb.UpdatedAt.toUTC.instant }])

/-- Go `strings.ToLower` restricted to the character list of the string
(the strings at play are ASCII), so that it evaluates by computation. -/
def strLower (s : String) : List Char := s.data.map Char.toLower

/-- Modelled from the spec: the collation used by `ORDER BY title ASC` is a
property of the database, not of the Go source; the spec (and the
repository's storage test, which sorts the expected result by
`strings.ToLower`) pin it down as case-insensitive ascending. -/
def titleLe (a b : Row) : Prop := strLower a.title ≤ strLower b.title

instance : DecidableRel titleLe := fun a b =>
  inferInstanceAs (Decidable (strLower a.title ≤ strLower b.title))

instance : IsTotal Row titleLe := ⟨fun a b => le_total (strLower a.title) (strLower b.title)⟩

instance : IsTrans Row titleLe := ⟨fun _ _ _ h h' => le_trans h h'⟩

instance {ε : Type _} {α : Type _} [DecidableEq ε] [DecidableEq α] :
    DecidableEq (Except ε α) := fun a b =>
  match a, b with
  | Except.error e, Except.error f =>
    if h : e = f then isTrue (by rw [h]) else isFalse (by intro hh; cases hh; exact h rfl)
  | Except.error _, Except.ok _ => isFalse (fun hh => Except.noConfusion hh)
  | Except.ok _, Except.error _ => isFalse (fun hh => Except.noConfusion hh)
  | Except.ok x, Except.ok y =>
    if h : x = y then isTrue (by rw [h]) else isFalse (by intro hh; cases hh; exact h rfl)

/-- Method pgAlbumStorage.FindAll: `SELECT ... ORDER BY title ASC OFFSET $1 LIMIT $2`,
each row decoded by `scanAlbum`; an empty result yields `ErrAlbumNotFound`.
Postgres rejects a negative `OFFSET` or `LIMIT` with an error. -/
def pgFindAll (s : Storage) (offset limit : Int) : Except StorageErr (List Album) :=
  if offset < 0 ∨ limit < 0 then
    Except.error StorageErr.dbError
  else
    let albs := (((s.insertionSort titleLe).drop offset.toNat).take limit.toNat).map scanAlbum
    if albs.isEmpty then Except.error StorageErr.albumNotFound else Except.ok albs

/-- Method pgAlbumStorage.FindOne: `SELECT ... WHERE id = $1`, decoded by
`scanAlbum`; `sql.ErrNoRows` becomes `ErrAlbumNotFound`. -/
def pgFindOne (s : Storage) (id : Nat) : Except StorageErr Album :=
  match s.find? (fun r => r.id = id) with
  | none => Except.error StorageErr.albumNotFound
  | some r => Except.ok (scanAlbum r)

/-- Method pgAlbumStorage.Update: `UPDATE album SET title, artist, price,
created_at, updated_at WHERE id = $6` (timestamps via `.UTC()`);
zero affected rows yields `ErrAlbumNotFound`. -/
def pgUpdate (s : Storage) (alb : Album) : Except StorageErr Storage :=
  if s.any (fun r => r.id = alb.ID) then
    Except.ok (s.map (fun r =>
      if r.id = alb.ID then
        { r with title := alb.Title
                 artist := alb.Artist
                 price := alb.Price
                 created_at := alb.CreatedAt.toUTC.instant
                 updated_at := alb.UpdatedAt.toUTC.instant }
      else r))
  else Except.error StorageErr.albumNotFound

/-- Method pgAlbumStorage.Remove: `DELETE FROM album WHERE id = $1`; zero affected
rows yields `ErrAlbumNotFound`. -/
def pgRemove (s : Storage) (id : Nat) : Except StorageErr Storage :=
  if s.any (fun r => r.id = id) then
    Except.ok (s.filter (fun r => r.id ≠ id))
  else Except.error StorageErr.albumNotFound

/-- The JSON request body of the create and update endpoints. -/
structure Request where
  Title : String
  Artist : String
  Price : Int
deriving DecidableEq, Repr

/-- Method request.Valid: one problem entry per invalid field, inserted in source
order (title, artist, price). The Go `map[string]string` is modelled as an
association list. -/
def Request.Valid (req : Request) : List (String × String) :=
  (if req.Title = "" then [("title", "is empty")] else []) ++
  (if req.Artist = "" then [("artist", "is empty")] else []) ++
  (if req.Price ≤ 0 then [("price", "is not greater than zero")] else [])

/-- Abstract JSON values, with scalar leaves for the serialized forms of
UUIDs and timestamps. -/
inductive Json where
  | str (s : String)
  | num (n : Int)
  | uuid (id : Nat)
  | time (t : GoTime)
  | arr (elems : List Json)
  | obj (fields : List (String × Json))

/-- JSON encoding of an `Album`, following the struct tags in album.go. -/
def albumJson (a : Album) : Json :=
  Json.obj [("id", Json.uuid a.ID), ("title", Json.str a.Title),
            ("artist", Json.str a.Artist), ("price", Json.num a.Price),
            ("created_at", Json.time a.CreatedAt), ("updated_at", Json.time a.UpdatedAt)]

/-- A response body as written by the handlers. -/
inductive Body where
  | album (alb : Album)
  | albums (albs : List Album)
  | message (msg : String)
  | problems (msg : String) (probs : List (String × String))
deriving DecidableEq, Repr

/-- The JSON value a body encodes to, following `encode`, `encodeMessage`
and `encodeProblems` in http-utils.go. -/
def Body.json : Body → Json
  | Body.album alb => albumJson alb
  | Body.albums albs => Json.arr (albs.map albumJson)
  | Body.message msg => Json.obj [("message", Json.str msg)]
  | Body.problems msg probs =>
      Json.obj [("message", Json.str msg),
                ("problems", Json.obj (probs.map (fun p => (p.1, Json.str p.2))))]

/-- An HTTP response: status code and body. -/
structure Response where
  status : Nat
  body : Body
deriving DecidableEq, Repr

/-- Helper encodeMessage from http-utils.go. -/
def encodeMessage (statusCode : Nat) (msg : String) : Response :=
  ⟨statusCode, Body.message msg⟩

/-- Helper encodeProblems from http-utils.go. -/
def encodeProblems (statusCode : Nat) (msg : String)
    (probs : List (String × String)) : Response :=
  ⟨statusCode, Body.problems msg probs⟩

/-- Handler createAlbumHandler. The request body is `none` when JSON decoding
fails. `newID` and `now` model the injected `uuid.New` and `time.Now`.
Returns the response and the storage state after the request. -/
def createAlbumHandler (s : Storage) (body : Option Request) (newID : Nat)
    (now : GoTime) : Response × Storage :=
  match body with
  | none => (encodeMessage 400 "malformed request body", s)
  | some req =>
    if req.Valid.length > 0 then
      (encodeProblems 400 "invalid request body" req.Valid, s)
    else
      let alb : Album := { ID := newID, Title := req.Title, Artist := req.Artist,
                           Price := req.Price, CreatedAt := now, UpdatedAt := now }
      match pgInsert s alb with
      | Except.error _ => (encodeMessage 500 "internal error", s)
      | Except.ok s' => (⟨201, Body.album alb⟩, s')

/-- Constant maxAlbumsPageSize. -/
def maxAlbumsPageSize : Int := 50

/-- Two's-complement wrap-around of Go `int` (signed 64-bit) arithmetic:
the value an `int` expression takes when its mathematical value leaves
the range, with 9223372036854775808 = 2^63 and 18446744073709551616 = 2^64. -/
def wrap64 (n : Int) : Int :=
  (n + 9223372036854775808) % 18446744073709551616 - 9223372036854775808

/-- Handler listAlbumsHandler. A query parameter is `none` when absent and
`some none` when present but not an integer (`strconv.Atoi` also fails on
out-of-range literals, so parsed values fit in 64 bits). Go computes the
offset with an `int` (64-bit) multiplication, which wraps on overflow,
hence the `wrap64`. Besides the response, the second component records the
`(offset, limit)` the handler passed to `FindAll`, or `none` when storage
was never called. -/
def listAlbumsHandler (s : Storage) (pageSizeParam pageNumberParam : Option (Option Int)) :
    Response × Option (Int × Int) :=
  match pageSizeParam with
  | none => (encodeMessage 400 "query parameter page_size is missing", none)
  | some none => (encodeMessage 400 "page size is not a valid number", none)
  | some (some pageSize) =>
    match pageNumberParam with
    | none => (encodeMessage 400 "query parameter page_number is missing", none)
    | some none => (encodeMessage 400 "page number is not a valid number", none)
    | some (some pageNumber) =>
      if pageSize < 1 then (encodeMessage 400 "page size is less than 1", none)
      else if pageSize > maxAlbumsPageSize then
        (encodeMessage 400 "page size is greater than 50", none)
      else if pageNumber < 1 then (encodeMessage 400 "page number is less than 1", none)
      else
        let offset := wrap64 (pageSize * (pageNumber - 1))
        let limit := pageSize
        match pgFindAll s offset limit with
        | Except.error StorageErr.albumNotFound => (⟨200, Body.albums []⟩, some (offset, limit))
        | Except.error _ => (encodeMessage 500 "internal error", some (offset, limit))
        | Except.ok albs => (⟨200, Body.albums albs⟩, some (offset, limit))

/-- Handler getAlbumHandler. The identifier is `none` when `uuid.Parse` fails. -/
def getAlbumHandler (s : Storage) (albumID : Option Nat) : Response :=
  match albumID with
  | none => encodeMessage 400 "malformed album id"
  | some id =>
    match pgFindOne s id with
    | Except.error StorageErr.albumNotFound => encodeMessage 404 "album not found"
    | Except.error _ => encodeMessage 500 "internal error"
    | Except.ok alb => ⟨200, Body.album alb⟩

/-- Handler updateAlbumHandler: parse the id, decode and validate the body, fetch
the album, overwrite title/artist/price/UpdatedAt, store it back. Returns
the response and the storage state after the request. -/
def updateAlbumHandler (s : Storage) (albumID : Option Nat) (body : Option Request)
    (now : GoTime) : Response × Storage :=
  match albumID with
  | none => (encodeMessage 400 "malformed album id", s)
  | some id =>
    match body with
    | none => (encodeMessage 400 "malformed request body", s)
    | some req =>
      if req.Valid.length > 0 then
        (encodeProblems 400 "invalid request body" req.Valid, s)
      else
        match pgFindOne s id with
        | Except.error StorageErr.albumNotFound => (encodeMessage 404 "album not found", s)
        | Except.error _ => (encodeMessage 500 "internal error", s)
        | Except.ok alb =>
          let alb' := { alb with Title := req.Title, Artist := req.Artist,
                                 Price := req.Price, UpdatedAt := now }
          match pgUpdate s alb' with
          | Except.error StorageErr.albumNotFound => (encodeMessage 404 "album not found", s)
          | Except.error _ => (encodeMessage 500 "internal error", s)
          | Except.ok s' => (⟨200, Body.album alb'⟩, s')

/-- Handler deleteAlbumHandler: parse the id, fetch the album, remove it, and
respond with the fetched album. Returns the response and the storage state
after the request. -/
def deleteAlbumHandler (s : Storage) (albumID : Option Nat) : Response × Storage :=
  match albumID with
  | none => (encodeMessage 400 "malformed album id", s)
  | some id =>
    match pgFindOne s id with
    | Except.error StorageErr.albumNotFound => (encodeMessage 404 "album not found", s)
    | Except.error _ => (encodeMessage 500 "internal error", s)
    | Except.ok alb =>
      match pgRemove s id with
      | Except.error StorageErr.albumNotFound => (encodeMessage 404 "album not found", s)
      | Except.error _ => (encodeMessage 500 "internal error", s)
      | Except.ok s' => (⟨200, Body.album alb⟩, s')

/-- One state transition of the server: a create, update or delete request
handled against the current storage state (reads leave the state unchanged). -/
inductive Step : Storage → Storage → Prop where
  | create (s : Storage) (body : Option Request) (newID : Nat) (now : GoTime) :
      Step s (createAlbumHandler s body newID now).2
  | update (s : Storage) (albumID : Option Nat) (body : Option Request) (now : GoTime) :
      Step s (updateAlbumHandler s albumID body now).2
  | delete (s : Storage) (albumID : Option Nat) :
      Step s (deleteAlbumHandler s albumID).2

/-- Storage states reachable from the empty store through the HTTP handlers. -/
inductive Reachable : Storage → Prop where
  | empty : Reachable []
  | step {s s' : Storage} : Reachable s → Step s s' → Reachable s'

/-- The data invariant on a stored row: non-empty title and artist,
strictly positive price. -/
def RowWF (r : Row) : Prop := r.title ≠ "" ∧ r.artist ≠ "" ∧ 0 < r.price

instance : DecidablePred RowWF := fun r =>
  inferInstanceAs (Decidable (r.title ≠ "" ∧ r.artist ≠ "" ∧ 0 < r.price))

/-- Every row of a storage state satisfies the data invariant. -/
def StoreWF (s : Storage) : Prop := ∀ r ∈ s, RowWF r

theorem Request.valid_nil_iff (req : Request) :
    req.Valid = [] ↔ (req.Title ≠ "" ∧ req.Artist ≠ "" ∧ 0 < req.Price) := by
  unfold Request.Valid
  split_ifs <;> simp_all

/-- C7: the validator is a pure function of title, artist and price whose
result maps exactly the invalid fields: "title" is a key iff the title is
empty, "artist" iff the artist is empty, "price" iff the price is ≤ 0, and
the mapping is empty iff all three fields are valid. -/
theorem request_valid_exact (req : Request) :
    ("title" ∈ req.Valid.map Prod.fst ↔ req.Title = "") ∧
    ("artist" ∈ req.Valid.map Prod.fst ↔ req.Artist = "") ∧
    ("price" ∈ req.Valid.map Prod.fst ↔ req.Price ≤ 0) ∧
    (req.Valid = [] ↔ (req.Title ≠ "" ∧ req.Artist ≠ "" ∧ 0 < req.Price)) := by
  refine ⟨?_, ?_, ?_, req.valid_nil_iff⟩ <;>
    · unfold Request.Valid
      split_ifs <;> simp_all

theorem wrap64_eq_self (n : Int) (h1 : -9223372036854775808 ≤ n)
    (h2 : n < 9223372036854775808) : wrap64 n = n := by
  unfold wrap64
  omega

/-- C6 counterexample: page_size 50 and page_number 200000000000000000 pass
Atoi and every validation check, yet the 64-bit product wraps: the handler
passes FindAll the wrapped negative offset, not the mathematical product
50 * (200000000000000000 - 1), and the negative offset surfaces as a 500. -/
theorem list_handler_offset_limit_counterexample :
    (listAlbumsHandler [] (some (some 50)) (some (some 200000000000000000))).2 =
      some (-8446744073709551666, 50) ∧
    ¬ (listAlbumsHandler [] (some (some 50)) (some (some 200000000000000000))).2 =
      some (50 * (200000000000000000 - 1), 50) ∧
    (listAlbumsHandler [] (some (some 50)) (some (some 200000000000000000))).1 =
      encodeMessage 500 "internal error" := by
  refine ⟨?_, ?_, ?_⟩ <;> decide

/-- C6 (amended): with page_size between 1 and 50, page_number at least 1,
and the product page_size * (page_number - 1) fitting in a signed 64-bit
integer (so Go's offset multiplication does not overflow), the list handler
calls FindAll with offset = page_size * (page_number - 1) and
limit = page_size. -/
theorem list_handler_offset_limit (s : Storage) (ps pn : Int)
    (h1 : 1 ≤ ps) (h2 : ps ≤ 50) (h3 : 1 ≤ pn)
    (h4 : ps * (pn - 1) < 9223372036854775808) :
    (listAlbumsHandler s (some (some ps)) (some (some pn))).2 = some (ps * (pn - 1), ps) := by
  have hnn : 0 ≤ ps * (pn - 1) := mul_nonneg (by omega) (by omega)
  have hw : wrap64 (ps * (pn - 1)) = ps * (pn - 1) := wrap64_eq_self _ (by omega) h4
  unfold listAlbumsHandler maxAlbumsPageSize
  dsimp only
  rw [if_neg (by omega), if_neg (by omega), if_neg (by omega)]
  rcases hfa : pgFindAll s (wrap64 (ps * (pn - 1))) ps with e | albs
  · cases e <;> simp [hfa, hw]
  · simp [hfa, hw]

theorem list_handler_offset_limit_witness :
    (listAlbumsHandler [] (some (some 10)) (some (some 3))).2 = some (20, 10) := by
  have h := list_handler_offset_limit [] 10 3 (by decide) (by decide) (by decide) (by decide)
  norm_num at h
  exact h

/-- C8: with in-range page parameters, when the FindAll call the handler
makes (at the offset it actually computed) signals that no album lies
within the requested offset and limit, the list handler responds 200 with
an empty JSON list, not 404. -/
theorem list_handler_empty_page (s : Storage) (ps pn : Int)
    (h1 : 1 ≤ ps) (h2 : ps ≤ 50) (h3 : 1 ≤ pn)
    (hna : pgFindAll s (wrap64 (ps * (pn - 1))) ps = Except.error StorageErr.albumNotFound) :
    (listAlbumsHandler s (some (some ps)) (some (some pn))).1 = ⟨200, Body.albums []⟩ ∧
    (Body.albums []).json = Json.arr [] := by
  refine ⟨?_, rfl⟩
  unfold listAlbumsHandler maxAlbumsPageSize
  dsimp only
  rw [if_neg (by omega), if_neg (by omega), if_neg (by omega)]
  simp [hna]

theorem list_handler_empty_page_witness :
    (listAlbumsHandler [] (some (some 1)) (some (some 1))).1 = ⟨200, Body.albums []⟩ ∧
    (Body.albums []).json = Json.arr [] :=
  list_handler_empty_page [] 1 1 (by decide) (by decide) (by decide) (by rfl)

/-- C5: a well-formed, valid update request addressing an identifier no
stored album has yields a 404 response and leaves the storage state
untouched. -/
theorem update_missing_id_unchanged (s : Storage) (id : Nat) (req : Request) (now : GoTime)
    (hval : req.Valid = []) (hid : ∀ r ∈ s, r.id ≠ id) :
    (updateAlbumHandler s (some id) (some req) now).1.status = 404 ∧
    (updateAlbumHandler s (some id) (some req) now).2 = s := by
  have hfo : pgFindOne s id = Except.error StorageErr.albumNotFound := by
    unfold pgFindOne
    have hnone : s.find? (fun r => r.id = id) = none := by
      rw [List.find?_eq_none]
      intro r hr
      simpa using hid r hr
    rw [hnone]
  unfold updateAlbumHandler
  dsimp only
  rw [if_neg (by simp [hval])]
  simp [hfo, encodeMessage]

theorem find?_id_eq_none (s : Storage) (id : Nat) (hid : ∀ r ∈ s, r.id ≠ id) :
    s.find? (fun r => r.id = id) = none :=
  List.find?_eq_none.mpr (fun r hr => by simpa using hid r hr)

theorem pgFindOne_eq_notFound (s : Storage) (id : Nat) (hid : ∀ r ∈ s, r.id ≠ id) :
    pgFindOne s id = Except.error StorageErr.albumNotFound := by
  unfold pgFindOne
  rw [find?_id_eq_none s id hid]

/-- C2: inserting an album and fetching it back by id returns the same
field values, with both timestamps carried over to the local time zone
(the adapter stores them converted to UTC and converts them back on read). -/
theorem insert_findOne_roundtrip (s : Storage) (a : Album)
    (hid : ∀ r ∈ s, r.id ≠ a.ID) :
    ∃ s', pgInsert s a = Except.ok s' ∧
      pgFindOne s' a.ID =
        Except.ok { a with CreatedAt := a.CreatedAt.toLocal,
                           UpdatedAt := a.UpdatedAt.toLocal } := by
  refine ⟨s ++ [{ id := a.ID, title := a.Title, artist := a.Artist, price := a.Price,
                  created_at := a.CreatedAt.toUTC.instant,
                  updated_at := a.UpdatedAt.toUTC.instant }], ?_, ?_⟩
  · unfold pgInsert
    rw [if_neg (by simp; intro r hr; simpa using hid r hr)]
  · unfold pgFindOne
    rw [List.find?_append, find?_id_eq_none s a.ID hid]
    simp [List.find?, scanAlbum, GoTime.toLocal, GoTime.toUTC]

theorem insert_findOne_roundtrip_witness :
    ∃ s', pgInsert [] ⟨7, "t", "a", 3, ⟨5, Loc.localZone⟩, ⟨6, Loc.utc⟩⟩ = Except.ok s' ∧
      pgFindOne s' 7 = Except.ok ⟨7, "t", "a", 3, ⟨5, Loc.localZone⟩, ⟨6, Loc.localZone⟩⟩ :=
  insert_findOne_roundtrip [] ⟨7, "t", "a", 3, ⟨5, Loc.localZone⟩, ⟨6, Loc.utc⟩⟩ (by simp)

/-- C9 counterexample: a PUT whose body is invalid (empty title and artist,
price 0) addressed to an identifier no stored album has is answered 400,
not 404: the handler validates the body before looking the id up. -/
theorem single_album_missing_404_counterexample :
    (updateAlbumHandler [] (some 0) (some ⟨"", "", 0⟩) ⟨0, Loc.utc⟩).1.status = 400 ∧
    ¬ (updateAlbumHandler [] (some 0) (some ⟨"", "", 0⟩) ⟨0, Loc.utc⟩).1.status = 404 :=
  ⟨rfl, by decide⟩

/-- C9 (amended): a GET or DELETE with a well-formed identifier no stored
album has, and a PUT additionally carrying a well-formed valid body, are
answered 404 with exactly the JSON object with message "album not found". -/
theorem single_album_missing_404 (s : Storage) (id : Nat) (req : Request) (now : GoTime)
    (hid : ∀ r ∈ s, r.id ≠ id) (hval : req.Valid = []) :
    getAlbumHandler s (some id) = ⟨404, Body.message "album not found"⟩ ∧
    (updateAlbumHandler s (some id) (some req) now).1 = ⟨404, Body.message "album not found"⟩ ∧
    (deleteAlbumHandler s (some id)).1 = ⟨404, Body.message "album not found"⟩ ∧
    (Body.message "album not found").json = Json.obj [("message", Json.str "album not found")] := by
  have hfo := pgFindOne_eq_notFound s id hid
  refine ⟨?_, ?_, ?_, rfl⟩
  · unfold getAlbumHandler
    simp [hfo, encodeMessage]
  · unfold updateAlbumHandler
    dsimp only
    rw [if_neg (by simp [hval])]
    simp [hfo, encodeMessage]
  · unfold deleteAlbumHandler
    simp [hfo, encodeMessage]

theorem single_album_missing_404_witness :
    getAlbumHandler [] (some 0) = ⟨404, Body.message "album not found"⟩ ∧
    (updateAlbumHandler [] (some 0) (some ⟨"t", "a", 1⟩) ⟨0, Loc.utc⟩).1 =
      ⟨404, Body.message "album not found"⟩ ∧
    (deleteAlbumHandler [] (some 0)).1 = ⟨404, Body.message "album not found"⟩ ∧
    (Body.message "album not found").json = Json.obj [("message", Json.str "album not found")] :=
  single_album_missing_404 [] 0 ⟨"t", "a", 1⟩ ⟨0, Loc.utc⟩ (by simp) (by decide)

/-- C10: a DELETE addressing an existing album, when the lookup and the
removal succeed, is answered 200 with the JSON encoding of the album as
fetched immediately before the removal. -/
theorem delete_existing_response (s : Storage) (id : Nat) (alb : Album)
    (hfo : pgFindOne s id = Except.ok alb) :
    (deleteAlbumHandler s (some id)).1 = ⟨200, Body.album alb⟩ ∧
    (deleteAlbumHandler s (some id)).1.body.json = albumJson alb := by
  have hex : s.any (fun r => r.id = id) = true := by
    unfold pgFindOne at hfo
    cases hf : s.find? (fun r => r.id = id) with
    | none => rw [hf] at hfo; exact absurd hfo (by simp)
    | some r =>
      have hp := List.find?_some hf
      have hmem := List.mem_of_find?_eq_some hf
      exact List.any_eq_true.mpr ⟨r, hmem, hp⟩
  have hrm : pgRemove s id = Except.ok (s.filter (fun r => r.id ≠ id)) := by
    unfold pgRemove
    rw [if_pos hex]
  have h1 : (deleteAlbumHandler s (some id)).1 = ⟨200, Body.album alb⟩ := by
    unfold deleteAlbumHandler
    simp [hfo, hrm]
  exact ⟨h1, by rw [h1]; rfl⟩

theorem delete_existing_response_witness :
    (deleteAlbumHandler [⟨1, "t", "a", 2, 3, 4⟩] (some 1)).1 =
      ⟨200, Body.album (scanAlbum ⟨1, "t", "a", 2, 3, 4⟩)⟩ ∧
    (deleteAlbumHandler [⟨1, "t", "a", 2, 3, 4⟩] (some 1)).1.body.json =
      albumJson (scanAlbum ⟨1, "t", "a", 2, 3, 4⟩) :=
  delete_existing_response [⟨1, "t", "a", 2, 3, 4⟩] 1 (scanAlbum ⟨1, "t", "a", 2, 3, 4⟩) (by rfl)

theorem update_missing_id_unchanged_witness :
    (updateAlbumHandler [] (some 0) (some ⟨"t", "a", 1⟩) ⟨0, Loc.utc⟩).1.status = 404 ∧
    (updateAlbumHandler [] (some 0) (some ⟨"t", "a", 1⟩) ⟨0, Loc.utc⟩).2 = [] :=
  update_missing_id_unchanged [] 0 ⟨"t", "a", 1⟩ ⟨0, Loc.utc⟩ (by decide) (by simp)

/-- C3: any album list FindAll returns is sorted by title in
case-insensitive ascending order: for consecutive returned albums the
lowercased title of the first is at most that of the second. -/
theorem findAll_sorted (s : Storage) (offset limit : Int) (albs : List Album)
    (h : pgFindAll s offset limit = Except.ok albs) :
    albs.Chain' (fun x y => strLower x.Title ≤ strLower y.Title) := by
  unfold pgFindAll at h
  by_cases hneg : offset < 0 ∨ limit < 0
  · rw [if_pos hneg] at h
    exact absurd h (by simp)
  · rw [if_neg hneg] at h
    dsimp only at h
    split at h
    · exact absurd h (by simp)
    · simp only [Except.ok.injEq] at h
      subst h
      have hp : (s.insertionSort titleLe).Pairwise titleLe :=
        List.sorted_insertionSort titleLe s
      have hsub : List.Sublist (((s.insertionSort titleLe).drop offset.toNat).take limit.toNat)
          (s.insertionSort titleLe) :=
        (List.take_sublist _ _).trans (List.drop_sublist _ _)
      have hp2 : (((s.insertionSort titleLe).drop offset.toNat).take limit.toNat).Pairwise
          titleLe := hp.sublist hsub
      have hp3 : ((((s.insertionSort titleLe).drop offset.toNat).take limit.toNat).map
          scanAlbum).Pairwise (fun x y => strLower x.Title ≤ strLower y.Title) := by
        rw [List.pairwise_map]
        exact hp2.imp (fun hle => hle)
      exact hp3.chain'

theorem findAll_sorted_witness :
    pgFindAll [⟨1, "B", "x", 1, 0, 0⟩, ⟨2, "a", "y", 1, 0, 0⟩] 0 5 =
      Except.ok [scanAlbum ⟨2, "a", "y", 1, 0, 0⟩, scanAlbum ⟨1, "B", "x", 1, 0, 0⟩] ∧
    List.Chain' (fun x y => strLower x.Title ≤ strLower y.Title)
      [scanAlbum ⟨2, "a", "y", 1, 0, 0⟩, scanAlbum ⟨1, "B", "x", 1, 0, 0⟩] :=
  ⟨by decide, findAll_sorted [⟨1, "B", "x", 1, 0, 0⟩, ⟨2, "a", "y", 1, 0, 0⟩] 0 5 _ (by decide)⟩

theorem storeWF_pgInsert (s : Storage) (alb : Album) (s' : Storage)
    (h : pgInsert s alb = Except.ok s') (hwf : StoreWF s)
    (ht : alb.Title ≠ "") (ha : alb.Artist ≠ "") (hp : 0 < alb.Price) :
    StoreWF s' := by
  unfold pgInsert at h
  split at h
  · exact absurd h (by simp)
  · simp only [Except.ok.injEq] at h
    subst h
    intro r hr
    rcases List.mem_append.mp hr with hr | hr
    · exact hwf r hr
    · simp only [List.mem_singleton] at hr
      subst hr
      exact ⟨ht, ha, hp⟩

theorem storeWF_pgUpdate (s : Storage) (alb : Album) (s' : Storage)
    (h : pgUpdate s alb = Except.ok s') (hwf : StoreWF s)
    (ht : alb.Title ≠ "") (ha : alb.Artist ≠ "") (hp : 0 < alb.Price) :
    StoreWF s' := by
  unfold pgUpdate at h
  split at h
  · simp only [Except.ok.injEq] at h
    subst h
    intro r hr
    rcases List.mem_map.mp hr with ⟨r0, hr0, rfl⟩
    by_cases hid : r0.id = alb.ID
    · rw [if_pos hid]
      exact ⟨ht, ha, hp⟩
    · rw [if_neg hid]
      exact hwf r0 hr0
  · exact absurd h (by simp)

theorem storeWF_pgRemove (s : Storage) (id : Nat) (s' : Storage)
    (h : pgRemove s id = Except.ok s') (hwf : StoreWF s) : StoreWF s' := by
  unfold pgRemove at h
  split at h
  · simp only [Except.ok.injEq] at h
    subst h
    intro r hr
    exact hwf r (List.mem_of_mem_filter hr)
  · exact absurd h (by simp)

theorem storeWF_step (s s' : Storage) (hstep : Step s s') (hwf : StoreWF s) : StoreWF s' := by
  cases hstep with
  | create body newID now =>
    cases body with
    | none => simpa [createAlbumHandler] using hwf
    | some req =>
      unfold createAlbumHandler
      dsimp only
      by_cases hval : req.Valid.length > 0
      · rw [if_pos hval]
        exact hwf
      · rw [if_neg hval]
        have hreq := (Request.valid_nil_iff req).mp (List.length_eq_zero.mp (by omega))
        cases hins : pgInsert s (Album.mk newID req.Title req.Artist req.Price now now) with
        | error e =>
          exact hwf
        | ok s2 =>
          exact storeWF_pgInsert s _ s2 hins hwf hreq.1 hreq.2.1 hreq.2.2
  | update albumID body now =>
    cases albumID with
    | none => simpa [updateAlbumHandler] using hwf
    | some id =>
      cases body with
      | none => simpa [updateAlbumHandler] using hwf
      | some req =>
        unfold updateAlbumHandler
        dsimp only
        by_cases hval : req.Valid.length > 0
        · rw [if_pos hval]
          exact hwf
        · rw [if_neg hval]
          have hreq := (Request.valid_nil_iff req).mp (List.length_eq_zero.mp (by omega))
          cases hfo : pgFindOne s id with
          | error e =>
            cases e <;> exact hwf
          | ok alb =>
            dsimp only
            cases hupd : pgUpdate s
                (Album.mk alb.ID req.Title req.Artist req.Price alb.CreatedAt now) with
            | error e =>
              cases e <;> exact hwf
            | ok s2 =>
              exact storeWF_pgUpdate s _ s2 hupd hwf hreq.1 hreq.2.1 hreq.2.2
  | delete albumID =>
    cases albumID with
    | none => simpa [deleteAlbumHandler] using hwf
    | some id =>
      unfold deleteAlbumHandler
      dsimp only
      cases hfo : pgFindOne s id with
      | error e =>
        cases e <;> exact hwf
      | ok alb =>
        dsimp only
        cases hrm : pgRemove s id with
        | error e =>
          cases e <;> exact hwf
        | ok s2 =>
          exact storeWF_pgRemove s id s2 hrm hwf

/-- C1: in every storage state reachable from the empty store through any
sequence of create, update and delete requests, every stored album has a
non-empty title, a non-empty artist and a price strictly greater than
zero. -/
theorem reachable_invariant (s : Storage) (h : Reachable s) :
    ∀ r ∈ s, r.title ≠ "" ∧ r.artist ≠ "" ∧ 0 < r.price := by
  induction h with
  | empty => intro r hr; cases hr
  | step _ hstep ih => exact storeWF_step _ _ hstep ih

theorem reachable_invariant_witness :
    (⟨5, "t", "a", 1, 0, 0⟩ : Row).title ≠ "" ∧ (⟨5, "t", "a", 1, 0, 0⟩ : Row).artist ≠ "" ∧
      0 < (⟨5, "t", "a", 1, 0, 0⟩ : Row).price :=
  reachable_invariant (createAlbumHandler [] (some ⟨"t", "a", 1⟩) 5 ⟨0, Loc.utc⟩).2
    (Reachable.step Reachable.empty (Step.create [] (some ⟨"t", "a", 1⟩) 5 ⟨0, Loc.utc⟩))
    ⟨5, "t", "a", 1, 0, 0⟩ (by decide)

/-- C4: a successful PUT on an existing album rewrites exactly that album's
title, artist, price and updated-at columns (the latter to the request time
converted to UTC), keeping its id and created-at values, and leaves every
other stored album unchanged. The primary key makes stored ids pairwise
distinct, which the `Nodup` hypothesis reflects. -/
theorem update_frame (s : Storage) (id : Nat) (req : Request) (now : GoTime)
    (hnodup : (s.map (fun r => r.id)).Nodup)
    (h200 : (updateAlbumHandler s (some id) (some req) now).1.status = 200) :
    (updateAlbumHandler s (some id) (some req) now).2 =
      s.map (fun r => if r.id = id then
        { r with title := req.Title, artist := req.Artist, price := req.Price,
                 updated_at := now.instant } else r) := by
  unfold updateAlbumHandler at h200 ⊢
  dsimp only at h200 ⊢
  by_cases hval : req.Valid.length > 0
  · rw [if_pos hval] at h200
    exact absurd h200 (by simp [encodeProblems])
  · rw [if_neg hval] at h200 ⊢
    cases hf : s.find? (fun r => r.id = id) with
    | none =>
      have hfo : pgFindOne s id = Except.error StorageErr.albumNotFound := by
        unfold pgFindOne
        rw [hf]
      rw [hfo] at h200
      exact absurd h200 (by simp [encodeMessage])
    | some r0 =>
      have hfo : pgFindOne s id = Except.ok (scanAlbum r0) := by
        unfold pgFindOne
        rw [hf]
      have hr0mem : r0 ∈ s := List.mem_of_find?_eq_some hf
      have hr0id : r0.id = id := by simpa using List.find?_some hf
      rw [hfo]
      simp only [scanAlbum, GoTime.toLocal, GoTime.toUTC]
      unfold pgUpdate
      have hany : (s.any (fun r => r.id = r0.id)) = true :=
        List.any_eq_true.mpr ⟨r0, hr0mem, by simp⟩
      rw [if_pos hany]
      dsimp only
      apply List.map_congr_left
      intro r hr
      by_cases hrid : r.id = id
      · rw [if_pos (hr0id ▸ hrid), if_pos hrid]
        have hrr0 : r = r0 :=
          List.inj_on_of_nodup_map hnodup hr hr0mem (by rw [hrid, hr0id])
        subst hrr0
        rfl
      · rw [if_neg (fun hc => hrid (hr0id ▸ hc)), if_neg hrid]

theorem update_frame_witness :
    (updateAlbumHandler [⟨1, "t", "a", 2, 7, 8⟩] (some 1) (some ⟨"u", "b", 3⟩)
        ⟨9, Loc.localZone⟩).2 = [⟨1, "u", "b", 3, 7, 9⟩] := by
  have h := update_frame [⟨1, "t", "a", 2, 7, 8⟩] 1 ⟨"u", "b", 3⟩ ⟨9, Loc.localZone⟩
    (by decide) (by decide)
  rw [h]
  decide

end AlbumCatalog
